import Mathlib

/-!
Verification of the rate-conversion facility (`opm/autodiff/RateConverter.hpp`)
and the multisegment-well coupling (`opm/autodiff/MultisegmentWell.hpp`) of the
opm-simulators excerpt.  Machine doubles are modelled as rationals; the
template parameter `Property` is modelled as a structure of evaluation
functions; the Eigen arrays and the `coeff` output buffer are modelled as
total functions from (phase-position) indices to rationals.
-/

namespace Opm
namespace RateConverter

/-- The canonical black-oil phases (`BlackoilPhases`): `Aqua` (water),
`Liquid` (oil), `Vapour` (gas). -/
inductive BlackoilPhase
  | Aqua
  | Liquid
  | Vapour
deriving DecidableEq

/-- `PhaseUsage`: which phases are active and at which numerical position
each active phase sits (`phase_used` / `phase_pos` arrays). -/
structure PhaseUsage where
  phase_used : BlackoilPhase → Bool
  phase_pos  : BlackoilPhase → Int

namespace Details

namespace PhaseUsed

/-- `Details::PhaseUsed::water`: water is an active phase. -/
def water (pu : PhaseUsage) : Bool := pu.phase_used BlackoilPhase.Aqua

/-- `Details::PhaseUsed::oil`: oil is an active phase. -/
def oil (pu : PhaseUsage) : Bool := pu.phase_used BlackoilPhase.Liquid

/-- `Details::PhaseUsed::gas`: gas is an active phase. -/
def gas (pu : PhaseUsage) : Bool := pu.phase_used BlackoilPhase.Vapour

end PhaseUsed

namespace PhasePos

/-- `Details::PhasePos::water`: position of water if active, `-1` if not. -/
def water (pu : PhaseUsage) : Int :=
  if PhaseUsed.water pu then pu.phase_pos BlackoilPhase.Aqua else -1

/-- `Details::PhasePos::oil`: position of oil if active, `-1` if not. -/
def oil (pu : PhaseUsage) : Int :=
  if PhaseUsed.oil pu then pu.phase_pos BlackoilPhase.Liquid else -1

/-- `Details::PhasePos::gas`: position of gas if active, `-1` if not. -/
def gas (pu : PhaseUsage) : Int :=
  if PhaseUsed.gas pu then pu.phase_pos BlackoilPhase.Vapour else -1

end PhasePos

end Details

/-- `PhasePresence`: fluid condition flags in the representative region
cell (`setFreeWater` / `setFreeOil` / `setFreeGas`). -/
structure PhasePresence where
  freeWater : Bool
  freeOil   : Bool
  freeGas   : Bool
deriving DecidableEq

/-- Per-region derived attributes (`SurfaceToReservoirVoidage::Attributes`):
average hydrocarbon pressure, average temperature, and the `Rmax` array of
maximum dissolution/evaporation ratios, indexed by phase position. -/
structure Attributes where
  pressure    : ℚ
  temperature : ℚ
  Rmax        : Int → ℚ

/-- `Miscibility`: dissolved gas-oil ratio `rs`, evaporated oil-gas ratio
`rv` (both limited by the region's saturated maxima), and the fluid
condition of the representative cell. -/
structure Miscibility where
  rs   : ℚ
  rv   : ℚ
  cond : PhasePresence

/-- `calcMiscibility`: fluid conditions in a region for a tuple `inp` of
active component surface rates, mirroring the source statement for
statement: rs is `in[ig]/in[io]` when the oil rate is nonzero, else `rsmax`
when the gas rate is nonzero, else `0`, then capped by `rsmax`; `rv`
symmetrically; presence flags set along the way. -/
def calcMiscibility (pu : PhaseUsage) (attr : Attributes) (inp : Int → ℚ) :
    Miscibility :=
  let io := Details.PhasePos.oil pu
  let ig := Details.PhasePos.gas pu
  let cond0 : PhasePresence := ⟨false, false, false⟩
  let cond1 := if Details.PhaseUsed.water pu then { cond0 with freeWater := true } else cond0
  let oilStep : PhasePresence × ℚ :=
    if Details.PhaseUsed.oil pu then
      let condO := { cond1 with freeOil := true }
      if Details.PhaseUsed.gas pu then
        let rsmax := attr.Rmax io
        let rs : ℚ :=
          if 0 < |inp io| then inp ig / inp io
          else if 0 < |inp ig| then rsmax else 0
        let condO := if rsmax < rs then { condO with freeGas := true } else condO
        (condO, min rs rsmax)
      else (condO, 0)
    else (cond1, 0)
  let gasStep : PhasePresence × ℚ :=
    if Details.PhaseUsed.gas pu then
      let condG :=
        if ¬ Details.PhaseUsed.oil pu then { oilStep.1 with freeGas := true } else oilStep.1
      if Details.PhaseUsed.oil pu then
        let rvmax := attr.Rmax ig
        let rv : ℚ :=
          if 0 < |inp ig| then inp io / inp ig
          else if 0 < |inp io| then rvmax else 0
        (condG, min rv rvmax)
      else (condG, 0)
    else (oilStep.1, 0)
  { rs := oilStep.2, rv := gasStep.2, cond := gasStep.1 }

/-- The fluid property object (template parameter `Property` of
`SurfaceToReservoirVoidage`, per `BlackoilPropsAdInterface`): formation
volume factors and saturated-ratio functions, each evaluated at a pressure,
a temperature, (for `bOil`/`bGas`) a dissolution ratio and fluid condition,
and a representative cell. -/
structure Props where
  phaseUsage : PhaseUsage
  bWat  : ℚ → ℚ → Int → ℚ
  bOil  : ℚ → ℚ → ℚ → PhasePresence → Int → ℚ
  bGas  : ℚ → ℚ → ℚ → PhasePresence → Int → ℚ
  rsSat : ℚ → ℚ → Int → ℚ
  rvSat : ℚ → ℚ → Int → ℚ

/-- Write `v` at index `i` of the coefficient buffer `f` (array update). -/
def updAt (f : Int → ℚ) (i : Int) (v : ℚ) : Int → ℚ :=
  fun j => if j = i then v else f j

/-- `calcCoeff` (body after the region lookup): surface-to-reservoir
conversion coefficients for one tuple `inp` of surface rates, evaluated
at the region's stored average pressure/temperature `attr` and the
region's representative cell `c`.  The buffer is zero-filled, water gets
`1/bw`, then the coupled oil/gas 2×2 contributions are accumulated. -/
def calcCoeff (props : Props) (attr : Attributes) (c : Int) (inp : Int → ℚ) :
    Int → ℚ :=
  let pu := props.phaseUsage
  let p := attr.pressure
  let T := attr.temperature
  let iw := Details.PhasePos.water pu
  let io := Details.PhasePos.oil pu
  let ig := Details.PhasePos.gas pu
  let coeff0 : Int → ℚ := fun _ => 0
  let coeff1 :=
    if Details.PhaseUsed.water pu then updAt coeff0 iw (1 / props.bWat p T c)
    else coeff0
  let m := calcMiscibility pu attr inp
  let detR : ℚ := 1 - m.rs * m.rv
  let coeff2 :=
    if Details.PhaseUsed.oil pu then
      let den := props.bOil p T m.rs m.cond c * detR
      let co := updAt coeff1 io (coeff1 io + 1 / den)
      if Details.PhaseUsed.gas pu then updAt co ig (co ig - m.rv / den) else co
    else coeff1
  let coeff3 :=
    if Details.PhaseUsed.gas pu then
      let den := props.bGas p T m.rv m.cond c * detR
      let co := updAt coeff2 ig (coeff2 ig + 1 / den)
      if Details.PhaseUsed.oil pu then updAt co io (co io - m.rs / den) else co
    else coeff2
  coeff3

/-- `Details::AverageIncrementCalculator<false>::operator()`: in a
sequential run every cell contributes its pressure, its temperature and a
count of one. -/
def averageIncrement (pressure temperature : Nat → ℚ) (cell : Nat) :
    ℚ × ℚ × Nat :=
  (pressure cell, temperature cell, 1)

/-- `calcAverages<false>` for one region: accumulate the increments of the
region's cells, then divide the sums by the count. -/
def calcAverages (pressure temperature : Nat → ℚ) (cells : List Nat) :
    ℚ × ℚ :=
  let acc := cells.foldl
    (fun (a : ℚ × ℚ × Nat) cell =>
      let inc := averageIncrement pressure temperature cell
      (a.1 + inc.1, a.2.1 + inc.2.1, a.2.2 + inc.2.2))
    (0, 0, 0)
  (acc.1 / (acc.2.2 : ℚ), acc.2.1 / (acc.2.2 : ℚ))

/-- `calcRmax` for one region: when both oil and gas are active, the `Rmax`
array gets row `io` set to `rsSat` and row `ig` to `rvSat`, both evaluated
at the region's average pressure and temperature; otherwise the array keeps
its zero initialisation. -/
def calcRmaxRegion (props : Props) (p T : ℚ) (c : Int) : Int → ℚ :=
  let pu := props.phaseUsage
  if Details.PhaseUsed.oil pu && Details.PhaseUsed.gas pu then
    let io := Details.PhasePos.oil pu
    let ig := Details.PhasePos.gas pu
    let r0 : Int → ℚ := fun _ => 0
    let r1 := updAt r0 io (props.rsSat p T c)
    updAt r1 ig (props.rvSat p T c)
  else fun _ => 0

/-- `defineState` restricted to one region in the sequential case:
`calcAverages<false>` followed by `calcRmax`. -/
def defineStateRegion (props : Props) (pressure temperature : Nat → ℚ)
    (cells : List Nat) (c : Int) : Attributes :=
  let pT := calcAverages pressure temperature cells
  { pressure := pT.1
    temperature := pT.2
    Rmax := calcRmaxRegion props pT.1 pT.2 c }

/-- The stored `Value` of `Details::RegionAttributes`: the per-region
attributes together with the region's representative cell. -/
structure RegValue where
  attr : Attributes
  cell : Int

/-- `Details::RegionAttributes::find`: look the region up in the attribute
map; an unknown region ID raises `std::invalid_argument("Unknown region
ID")`, modelled as `Except.error`. -/
def findRegion (attrMap : List (Int × RegValue)) (r : Int) :
    Except String RegValue :=
  match attrMap.find? (fun kv => kv.1 == r) with
  | some kv => Except.ok kv.2
  | none => Except.error "Unknown region ID"

/-- `calcCoeff` including the `attr_.attributes(r)` region lookup, as a
state-passing step: the result (or the lookup error) together with the
converter's stored region attributes after the call. -/
def calcCoeffRun (props : Props) (attrMap : List (Int × RegValue))
    (inp : Int → ℚ) (r : Int) :
    Except String (Int → ℚ) × List (Int × RegValue) :=
  match findRegion attrMap r with
  | Except.ok v => (Except.ok (calcCoeff props v.attr v.cell inp), attrMap)
  | Except.error e => (Except.error e, attrMap)

end RateConverter

namespace MultisegmentWell

/-- `gasoil`: the two-phase gas/oil configuration
(`numEq == 2 && Indices::compositionSwitchIdx >= 0`). -/
def gasoil (numEq : Nat) (compositionSwitchIdx : Int) : Bool :=
  numEq == 2 && decide (0 ≤ compositionSwitchIdx)

/-- `GTotal`: index of the total-rate primary variable. -/
def GTotal : Int := 0

/-- `WFrac`: index of the water-fraction primary variable
(`-1000`, i.e. absent, in the gas/oil configuration). -/
def WFrac (go : Bool) : Int := if go then -1000 else 1

/-- `GFrac`: index of the gas-fraction primary variable. -/
def GFrac (go : Bool) : Int := if go then 1 else 2

/-- `SPres`: index of the segment-pressure primary variable. -/
def SPres (go : Bool) : Int := if go then 2 else 3

/-- `numWellEq`: the number of well equations and primary variables per
segment (`EnablePolymer ? numEq : numEq + 1`). -/
def numWellEq (enablePolymer : Bool) (numEq : Nat) : Nat :=
  if enablePolymer then numEq else numEq + 1

/-- The explicit inverse of the small diagonal block `D` (the source
factorises `D` directly and exactly): `det⁻¹ • adjugate`. -/
def invD {nw : Nat} (D : Matrix (Fin nw) (Fin nw) ℚ) :
    Matrix (Fin nw) (Fin nw) ℚ :=
  D.det⁻¹ • D.adjugate

/-- Modelled from the spec: `recoverSolutionWell` (its body lives in
`MultisegmentWell_impl.hpp`, which is not part of the excerpt; the header
documents it as the recovery of the well increment).  After the global
solve produced `x`, the well increment is `xw = D⁻¹ · (resWell − B·x)`. -/
def recoverSolutionWell {nw nr : Nat} (D : Matrix (Fin nw) (Fin nw) ℚ)
    (B : Matrix (Fin nw) (Fin nr) ℚ) (resWell : Fin nw → ℚ)
    (x : Fin nr → ℚ) : Fin nw → ℚ :=
  Matrix.mulVec (invD D) (resWell - Matrix.mulVec B x)

/-- The local linear blocks owned by one well: the two off-diagonal
blocks `duneB_`, `duneC_`, the diagonal block `duneD_` and the residual
`resWell_` (`C` taken as the map from well unknowns to reservoir
equations). -/
structure WellSystem (nw nr : Nat) where
  duneB : Matrix (Fin nw) (Fin nr) ℚ
  duneC : Matrix (Fin nr) (Fin nw) ℚ
  duneD : Matrix (Fin nw) (Fin nw) ℚ
  resWell : Fin nw → ℚ

/-- Modelled from the spec: `apply(x, Ax)` (body in
`MultisegmentWell_impl.hpp`, not part of the excerpt; the header documents
it as `Ax = Ax - C D^-1 B x`).  Subtract `C·(D⁻¹·(B·x))` from the global
matrix-vector product accumulator; the well's own blocks are returned
unchanged. -/
def applyX {nw nr : Nat} (ws : WellSystem nw nr) (x Ax : Fin nr → ℚ) :
    (Fin nr → ℚ) × WellSystem nw nr :=
  (Ax - Matrix.mulVec ws.duneC
      (Matrix.mulVec (invD ws.duneD) (Matrix.mulVec ws.duneB x)), ws)

/-- Modelled from the spec: `apply(r)` (body in
`MultisegmentWell_impl.hpp`, not part of the excerpt; the header documents
it as `r = r - C D^-1 Rw`).  Subtract `C·(D⁻¹·resWell)` from the global
residual accumulator; the well's own blocks are returned unchanged. -/
def applyR {nw nr : Nat} (ws : WellSystem nw nr) (r : Fin nr → ℚ) :
    (Fin nr → ℚ) × WellSystem nw nr :=
  (r - Matrix.mulVec ws.duneC (Matrix.mulVec (invD ws.duneD) ws.resWell), ws)

/-- Clip a fraction to the interval `[0,1]`. -/
def clip01 (x : ℚ) : ℚ := max 0 (min 1 x)

/-- Modelled from the spec: `processFractions` (body in
`MultisegmentWell_impl.hpp`, not part of the excerpt).  Per the spec, the
explicit fraction variables (water, gas) are clipped to `[0,1]`, the
implied oil complement `1 − F_w − F_g` is recomputed and clipped, and the
triple is renormalised so the fractions sum to exactly `1`; this runs once
per assembly. -/
def processFractions (fw fg : ℚ) : ℚ × ℚ × ℚ :=
  let fw1 := clip01 fw
  let fg1 := clip01 fg
  let fo1 := clip01 (1 - fw1 - fg1)
  let s := fw1 + fg1 + fo1
  (fw1 / s, fg1 / s, fo1 / s)

end MultisegmentWell
end Opm

namespace Opm
namespace RateConverter

/-- Example phase usage: oil and gas active (positions 0 and 1), water
inactive. -/
def puOG : PhaseUsage where
  phase_used := fun p =>
    match p with
    | BlackoilPhase.Aqua => false
    | BlackoilPhase.Liquid => true
    | BlackoilPhase.Vapour => true
  phase_pos := fun p =>
    match p with
    | BlackoilPhase.Aqua => 0
    | BlackoilPhase.Liquid => 0
    | BlackoilPhase.Vapour => 1

/-- Example three-phase usage: water, oil, gas active at positions
0, 1, 2. -/
def puWOG : PhaseUsage where
  phase_used := fun _ => true
  phase_pos := fun p =>
    match p with
    | BlackoilPhase.Aqua => 0
    | BlackoilPhase.Liquid => 1
    | BlackoilPhase.Vapour => 2

/-- Example region attributes for the spec's miscibility scenario:
`Rs_max = 0.6` at the oil position and a parametric `Rv_max` at the gas
position. -/
def attrEx (rvmax : ℚ) : Attributes where
  pressure := 100
  temperature := 300
  Rmax := fun i => if i = 0 then 3 / 5 else rvmax

/-- The spec's example surface rates: oil (position 0) 50, gas
(position 1) 25. -/
def inEx : Int → ℚ := fun i => if i = 0 then 50 else if i = 1 then 25 else 0

/-- Example surface rates with a zero oil rate: oil (position 0) 0, gas
(position 1) 25. -/
def inZeroOil : Int → ℚ := fun i => if i = 1 then 25 else 0

/-- Example property object with simple concrete evaluation functions. -/
def propsEx : Props where
  phaseUsage := puWOG
  bWat := fun _ _ _ => 2
  bOil := fun _ _ _ _ _ => 3
  bGas := fun _ _ _ _ _ => 5
  rsSat := fun p T _ => p + T
  rvSat := fun p T _ => p - T

/-- Example stored region value: the miscibility-example attributes with
representative cell 0. -/
def regValEx : RegValue where
  attr := attrEx 2
  cell := 0

/-- Example cell pressure field. -/
def pressEx : Nat → ℚ := fun n => (n : ℚ) + 10

/-- Example cell temperature field. -/
def tempEx : Nat → ℚ := fun n => 2 * (n : ℚ) + 300

end RateConverter
end Opm

namespace Opm

open RateConverter

/-- C6: with polymer disabled, the per-segment number of well equations and
primary variables is `numPhaseEq + 1`; the primary-variable tuple starts
with the total rate (`GTotal` at index 0) and ends with the segment
pressure (`SPres` at index `numWellEq − 1`); the two-phase gas/oil
configuration (`numEq = 2`, composition switch present) has the single
fraction variable `GFrac` at index 1 with `WFrac` absent (negative
sentinel), while the three-phase configuration has `WFrac` at index 1 and
`GFrac` at index 2. -/
theorem numWellEq_and_primary_variable_layout :
    (∀ numPhaseEq : Nat,
      MultisegmentWell.numWellEq false numPhaseEq = numPhaseEq + 1) ∧
    (∀ csIdx : Int, 0 ≤ csIdx → MultisegmentWell.gasoil 2 csIdx = true) ∧
    MultisegmentWell.gasoil 3 0 = false ∧
    MultisegmentWell.GTotal = 0 ∧
    MultisegmentWell.SPres true = (MultisegmentWell.numWellEq false 2 : Int) - 1 ∧
    MultisegmentWell.SPres false = (MultisegmentWell.numWellEq false 3 : Int) - 1 ∧
    MultisegmentWell.WFrac true < 0 ∧
    MultisegmentWell.GFrac true = 1 ∧
    MultisegmentWell.WFrac false = 1 ∧
    MultisegmentWell.GFrac false = 2 := by
  refine ⟨fun n => rfl, ?_, by decide, rfl, by decide, by decide, by decide,
    rfl, rfl, rfl⟩
  intro csIdx hc
  simp [MultisegmentWell.gasoil, hc]

/-- Witness for C6 at the concrete composition-switch index 0. -/
theorem numWellEq_and_primary_variable_layout_witness :
    MultisegmentWell.gasoil 2 0 = true :=
  numWellEq_and_primary_variable_layout.2.1 0 (by decide)

/-- C2 as stated is false: with the spec's rates (oil 50, gas 25) and
`Rs_max = 0.6`, the dissolved ratio is `rs = 1/2`, but with `Rv_max = 2`
the evaporated ratio is `rv = min(50/25, 2) = 2`, so
`det(R) = 1 − rs·rv = 0` is not positive. -/
theorem miscibility_example_det_zero_at_rvmax_two :
    (calcMiscibility puOG (attrEx 2) inEx).rs = 1 / 2 ∧
    ¬ (0 < 1 - (calcMiscibility puOG (attrEx 2) inEx).rs *
        (calcMiscibility puOG (attrEx 2) inEx).rv) := by
  norm_num [calcMiscibility, puOG, attrEx, inEx, Details.PhasePos.oil,
    Details.PhasePos.gas, Details.PhaseUsed.oil, Details.PhaseUsed.gas,
    Details.PhaseUsed.water]

/-- C2 amended: for the spec's example (single region, oil and gas active,
surface rates oil 50 and gas 25, `Rs_max = 0.6`), the computed dissolved
ratio is `rs = min(25/50, 0.6) = 1/2`, and `det(R) = 1 − rs·rv > 0`
provided the region's `Rv_max` is less than 2 (i.e. below the oil/gas rate
ratio 50/25). -/
theorem miscibility_example_amended (rvmax : ℚ) (h : rvmax < 2) :
    (calcMiscibility puOG (attrEx rvmax) inEx).rs = 1 / 2 ∧
    0 < 1 - (calcMiscibility puOG (attrEx rvmax) inEx).rs *
        (calcMiscibility puOG (attrEx rvmax) inEx).rv := by
  have hrs : (calcMiscibility puOG (attrEx rvmax) inEx).rs = 1 / 2 := by
    norm_num [calcMiscibility, puOG, attrEx, inEx, Details.PhasePos.oil,
      Details.PhasePos.gas, Details.PhaseUsed.oil, Details.PhaseUsed.gas,
      Details.PhaseUsed.water]
  have hrv : (calcMiscibility puOG (attrEx rvmax) inEx).rv = min 2 rvmax := by
    norm_num [calcMiscibility, puOG, attrEx, inEx, Details.PhasePos.oil,
      Details.PhasePos.gas, Details.PhaseUsed.oil, Details.PhaseUsed.gas,
      Details.PhaseUsed.water]
  refine ⟨hrs, ?_⟩
  rw [hrs, hrv, min_eq_right h.le]
  linarith

/-- Witness for the amended C2 at the concrete `Rv_max = 1`. -/
theorem miscibility_example_amended_witness :
    (1 : ℚ) < 2 ∧
    ((calcMiscibility puOG (attrEx 1) inEx).rs = 1 / 2 ∧
      0 < 1 - (calcMiscibility puOG (attrEx 1) inEx).rs *
          (calcMiscibility puOG (attrEx 1) inEx).rv) :=
  ⟨by norm_num, miscibility_example_amended 1 (by norm_num)⟩

/-- C3: for every tuple of surface rates and every region attribute record
with nonnegative saturated maxima (as produced by `calcRmax` from the
nonnegative `rsSat`/`rvSat` values, or kept at the zero initialisation),
the dissolved gas-oil ratio is at most the region's `Rs` maximum and the
evaporated oil-gas ratio is at most the region's `Rv` maximum. -/
theorem calcMiscibility_ratios_capped (pu : PhaseUsage) (attr : Attributes)
    (inp : Int → ℚ)
    (hrs : 0 ≤ attr.Rmax (Details.PhasePos.oil pu))
    (hrv : 0 ≤ attr.Rmax (Details.PhasePos.gas pu)) :
    (calcMiscibility pu attr inp).rs ≤ attr.Rmax (Details.PhasePos.oil pu) ∧
    (calcMiscibility pu attr inp).rv ≤ attr.Rmax (Details.PhasePos.gas pu) := by
  cases ho : Details.PhaseUsed.oil pu <;> cases hg : Details.PhaseUsed.gas pu <;>
    constructor <;>
      simp only [calcMiscibility, ho, hg, Bool.false_eq_true, if_false, if_true,
        Bool.not_eq_true, ite_true, ite_false, Bool.true_eq_false, not_false_iff] <;>
      first
        | exact hrs
        | exact hrv
        | exact min_le_right _ _

/-- Witness for C3 at the spec's example rates and attributes. -/
theorem calcMiscibility_ratios_capped_witness :
    (0 ≤ (attrEx 2).Rmax (Details.PhasePos.oil puOG) ∧
      0 ≤ (attrEx 2).Rmax (Details.PhasePos.gas puOG)) ∧
    ((calcMiscibility puOG (attrEx 2) inEx).rs ≤
        (attrEx 2).Rmax (Details.PhasePos.oil puOG) ∧
      (calcMiscibility puOG (attrEx 2) inEx).rv ≤
        (attrEx 2).Rmax (Details.PhasePos.gas puOG)) := by
  have h1 : 0 ≤ (attrEx 2).Rmax (Details.PhasePos.oil puOG) := by
    norm_num [attrEx, puOG, Details.PhasePos.oil, Details.PhaseUsed.oil]
  have h2 : 0 ≤ (attrEx 2).Rmax (Details.PhasePos.gas puOG) := by
    norm_num [attrEx, puOG, Details.PhasePos.gas, Details.PhaseUsed.gas]
  exact ⟨⟨h1, h2⟩, calcMiscibility_ratios_capped puOG (attrEx 2) inEx h1 h2⟩

/-- C10: zero-rate edge cases of the miscibility model when oil and gas are
both active and the saturated maxima are nonnegative: a zero oil rate gives
`rs = Rs_max` when the gas rate is nonzero and `rs = 0` when it is also
zero; a zero gas rate gives `rv = Rv_max` when the oil rate is nonzero and
`rv = 0` otherwise. -/
theorem calcMiscibility_zero_rate_cases (pu : PhaseUsage) (attr : Attributes)
    (inp : Int → ℚ)
    (ho : Details.PhaseUsed.oil pu = true) (hg : Details.PhaseUsed.gas pu = true)
    (hrs : 0 ≤ attr.Rmax (Details.PhasePos.oil pu))
    (hrv : 0 ≤ attr.Rmax (Details.PhasePos.gas pu)) :
    (inp (Details.PhasePos.oil pu) = 0 →
      ((inp (Details.PhasePos.gas pu) ≠ 0 →
          (calcMiscibility pu attr inp).rs = attr.Rmax (Details.PhasePos.oil pu)) ∧
        (inp (Details.PhasePos.gas pu) = 0 →
          (calcMiscibility pu attr inp).rs = 0))) ∧
    (inp (Details.PhasePos.gas pu) = 0 →
      ((inp (Details.PhasePos.oil pu) ≠ 0 →
          (calcMiscibility pu attr inp).rv = attr.Rmax (Details.PhasePos.gas pu)) ∧
        (inp (Details.PhasePos.oil pu) = 0 →
          (calcMiscibility pu attr inp).rv = 0))) := by
  constructor
  · intro hio
    constructor
    · intro hig
      simp [calcMiscibility, ho, hg, hio, abs_pos, hig, min_self]
    · intro hig
      simp [calcMiscibility, ho, hg, hio, hig, min_eq_left hrs]
  · intro hig
    constructor
    · intro hio
      simp [calcMiscibility, ho, hg, hig, abs_pos, hio, min_self]
    · intro hio
      simp [calcMiscibility, ho, hg, hio, hig, min_eq_left hrv]

/-- Witness for C10 at the concrete rates (oil 0, gas 25). -/
theorem calcMiscibility_zero_rate_cases_witness :
    inZeroOil (Details.PhasePos.oil puOG) = 0 ∧
    inZeroOil (Details.PhasePos.gas puOG) ≠ 0 ∧
    (calcMiscibility puOG (attrEx 2) inZeroOil).rs =
      (attrEx 2).Rmax (Details.PhasePos.oil puOG) := by
  have ho : Details.PhaseUsed.oil puOG = true := rfl
  have hg : Details.PhaseUsed.gas puOG = true := rfl
  have h1 : 0 ≤ (attrEx 2).Rmax (Details.PhasePos.oil puOG) := by
    norm_num [attrEx, puOG, Details.PhasePos.oil, Details.PhaseUsed.oil]
  have h2 : 0 ≤ (attrEx 2).Rmax (Details.PhasePos.gas puOG) := by
    norm_num [attrEx, puOG, Details.PhasePos.gas, Details.PhaseUsed.gas]
  have hio : inZeroOil (Details.PhasePos.oil puOG) = 0 := by
    norm_num [inZeroOil, puOG, Details.PhasePos.oil, Details.PhaseUsed.oil]
  have hig : inZeroOil (Details.PhasePos.gas puOG) ≠ 0 := by
    norm_num [inZeroOil, puOG, Details.PhasePos.gas, Details.PhaseUsed.gas]
  exact ⟨hio, hig,
    ((calcMiscibility_zero_rate_cases puOG (attrEx 2) inZeroOil ho hg h1 h2).1
      hio).1 hig⟩

/-- The water entry of the coefficient buffer is `1/bw` evaluated at the
region's stored average pressure and temperature, untouched by the later
oil/gas accumulation (the water position differs from the oil and gas
positions). -/
theorem calcCoeff_water_eval (props : Props) (attr : Attributes) (c : Int)
    (inp : Int → ℚ)
    (hw : Details.PhaseUsed.water props.phaseUsage = true)
    (hwo : Details.PhasePos.water props.phaseUsage ≠
      Details.PhasePos.oil props.phaseUsage)
    (hwg : Details.PhasePos.water props.phaseUsage ≠
      Details.PhasePos.gas props.phaseUsage) :
    calcCoeff props attr c inp (Details.PhasePos.water props.phaseUsage) =
      1 / props.bWat attr.pressure attr.temperature c := by
  cases ho : Details.PhaseUsed.oil props.phaseUsage <;>
    cases hg : Details.PhaseUsed.gas props.phaseUsage <;>
      simp [calcCoeff, updAt, hw, ho, hg, hwo, hwg]

/-- C5: when water is active and sits at its own position, the water
conversion coefficient computed by `calcCoeff` equals `1/bw` at the
region's average pressure and temperature, and is therefore identical for
any two input surface-rate tuples in the same region. -/
theorem calcCoeff_water_rate_independent (props : Props) (attr : Attributes)
    (c : Int) (in1 in2 : Int → ℚ)
    (hw : Details.PhaseUsed.water props.phaseUsage = true)
    (hwo : Details.PhasePos.water props.phaseUsage ≠
      Details.PhasePos.oil props.phaseUsage)
    (hwg : Details.PhasePos.water props.phaseUsage ≠
      Details.PhasePos.gas props.phaseUsage) :
    calcCoeff props attr c in1 (Details.PhasePos.water props.phaseUsage) =
      1 / props.bWat attr.pressure attr.temperature c ∧
    calcCoeff props attr c in1 (Details.PhasePos.water props.phaseUsage) =
      calcCoeff props attr c in2 (Details.PhasePos.water props.phaseUsage) := by
  rw [calcCoeff_water_eval props attr c in1 hw hwo hwg,
    calcCoeff_water_eval props attr c in2 hw hwo hwg]
  exact ⟨rfl, rfl⟩

/-- Witness for C5: with three active phases, the example rate tuples
(oil 50/gas 25 versus oil 0/gas 25) give the same water coefficient. -/
theorem calcCoeff_water_rate_independent_witness :
    Details.PhaseUsed.water propsEx.phaseUsage = true ∧
    Details.PhasePos.water propsEx.phaseUsage ≠
      Details.PhasePos.oil propsEx.phaseUsage ∧
    Details.PhasePos.water propsEx.phaseUsage ≠
      Details.PhasePos.gas propsEx.phaseUsage ∧
    calcCoeff propsEx (attrEx 2) 0 inEx
        (Details.PhasePos.water propsEx.phaseUsage) =
      calcCoeff propsEx (attrEx 2) 0 inZeroOil
        (Details.PhasePos.water propsEx.phaseUsage) := by
  have hw : Details.PhaseUsed.water propsEx.phaseUsage = true := rfl
  have hwo : Details.PhasePos.water propsEx.phaseUsage ≠
      Details.PhasePos.oil propsEx.phaseUsage := by
    norm_num [propsEx, puWOG, Details.PhasePos.water, Details.PhasePos.oil,
      Details.PhaseUsed.water, Details.PhaseUsed.oil]
  have hwg : Details.PhasePos.water propsEx.phaseUsage ≠
      Details.PhasePos.gas propsEx.phaseUsage := by
    norm_num [propsEx, puWOG, Details.PhasePos.water, Details.PhasePos.gas,
      Details.PhaseUsed.water, Details.PhaseUsed.gas]
  exact ⟨hw, hwo, hwg,
    (calcCoeff_water_rate_independent propsEx (attrEx 2) 0 inEx inZeroOil
      hw hwo hwg).2⟩

/-- The sequential accumulation loop of `calcAverages` sums the pressures
and the temperatures of the region's cells and counts each cell once. -/
theorem calcAverages_foldl (press temp : Nat → ℚ) (cells : List Nat)
    (a b : ℚ) (n : Nat) :
    cells.foldl
      (fun (acc : ℚ × ℚ × Nat) cell =>
        let inc := averageIncrement press temp cell
        (acc.1 + inc.1, acc.2.1 + inc.2.1, acc.2.2 + inc.2.2))
      (a, b, n) =
    (a + (cells.map press).sum, b + (cells.map temp).sum, n + cells.length) := by
  induction cells generalizing a b n with
  | nil => simp
  | cons hd tl ih =>
    refine ((ih (a + press hd) (b + temp hd) (n + 1)).trans ?_)
    refine Prod.ext ?_ (Prod.ext ?_ ?_)
    · simp only [List.map_cons, List.sum_cons]
      ring
    · simp only [List.map_cons, List.sum_cons]
      ring
    · simp only [List.length_cons]
      omega

/-- `calcAverages<false>` computes the arithmetic means of the cell
pressures and cell temperatures over exactly the region's cells. -/
theorem calcAverages_spec (press temp : Nat → ℚ) (cells : List Nat) :
    calcAverages press temp cells =
      ((cells.map press).sum / (cells.length : ℚ),
        (cells.map temp).sum / (cells.length : ℚ)) := by
  simp only [calcAverages, calcAverages_foldl, zero_add]

/-- C7: for a nonempty region, `defineState` stores as the region's
pressure and temperature the arithmetic means over exactly the region's
cells, and the fluid properties consumed later (`rsSat`/`rvSat` in the
`Rmax` rows and `bw` in the water coefficient of `calcCoeff`) are evaluated
at precisely those averages. -/
theorem defineState_region_averages (props : Props) (press temp : Nat → ℚ)
    (cells : List Nat) (c : Int) (hne : cells ≠ []) :
    (defineStateRegion props press temp cells c).pressure =
      (cells.map press).sum / (cells.length : ℚ) ∧
    (defineStateRegion props press temp cells c).temperature =
      (cells.map temp).sum / (cells.length : ℚ) ∧
    (Details.PhaseUsed.oil props.phaseUsage = true →
      Details.PhaseUsed.gas props.phaseUsage = true →
      Details.PhasePos.oil props.phaseUsage ≠
        Details.PhasePos.gas props.phaseUsage →
      (defineStateRegion props press temp cells c).Rmax
          (Details.PhasePos.oil props.phaseUsage) =
        props.rsSat ((cells.map press).sum / (cells.length : ℚ))
          ((cells.map temp).sum / (cells.length : ℚ)) c ∧
      (defineStateRegion props press temp cells c).Rmax
          (Details.PhasePos.gas props.phaseUsage) =
        props.rvSat ((cells.map press).sum / (cells.length : ℚ))
          ((cells.map temp).sum / (cells.length : ℚ)) c) ∧
    (Details.PhaseUsed.water props.phaseUsage = true →
      Details.PhasePos.water props.phaseUsage ≠
        Details.PhasePos.oil props.phaseUsage →
      Details.PhasePos.water props.phaseUsage ≠
        Details.PhasePos.gas props.phaseUsage →
      ∀ inp : Int → ℚ,
        calcCoeff props (defineStateRegion props press temp cells c) c inp
            (Details.PhasePos.water props.phaseUsage) =
          1 / props.bWat ((cells.map press).sum / (cells.length : ℚ))
            ((cells.map temp).sum / (cells.length : ℚ)) c) := by
  have hp : (defineStateRegion props press temp cells c).pressure =
      (cells.map press).sum / (cells.length : ℚ) := by
    simp only [defineStateRegion, calcAverages_spec]
  have ht : (defineStateRegion props press temp cells c).temperature =
      (cells.map temp).sum / (cells.length : ℚ) := by
    simp only [defineStateRegion, calcAverages_spec]
  refine ⟨hp, ht, ?_, ?_⟩
  · intro ho hg hog
    constructor
    · simp only [defineStateRegion, calcAverages_spec]
      simp [calcRmaxRegion, updAt, ho, hg, hog]
    · simp only [defineStateRegion, calcAverages_spec]
      simp [calcRmaxRegion, updAt, ho, hg, hog]
  · intro hw hwo hwg inp
    rw [calcCoeff_water_eval props _ c inp hw hwo hwg, hp, ht]

/-- Witness for C7 at the three-cell region `[0, 1, 2]`. -/
theorem defineState_region_averages_witness :
    ([0, 1, 2] : List Nat) ≠ [] ∧
    (defineStateRegion propsEx pressEx tempEx [0, 1, 2] 0).pressure =
      (([0, 1, 2] : List Nat).map pressEx).sum /
        ((([0, 1, 2] : List Nat).length : ℚ)) :=
  ⟨by simp,
    (defineState_region_averages propsEx pressEx tempEx [0, 1, 2] 0
      (by simp)).1⟩

/-- `RegionAttributes::find` on a region ID absent from the attribute map
raises `invalid_argument("Unknown region ID")`. -/
theorem findRegion_unknown (attrMap : List (Int × RegValue)) (r : Int)
    (h : ∀ kv ∈ attrMap, kv.1 ≠ r) :
    findRegion attrMap r = Except.error "Unknown region ID" := by
  have hnone : attrMap.find? (fun kv => kv.1 == r) = none := by
    rw [List.find?_eq_none]
    intro x hx
    simpa using h x hx
  simp [findRegion, hnone]

/-- `RegionAttributes::find` on a region ID present in the attribute map
succeeds. -/
theorem findRegion_known (attrMap : List (Int × RegValue)) (r : Int)
    (h : ∃ kv ∈ attrMap, kv.1 = r) :
    ∃ v, findRegion attrMap r = Except.ok v := by
  induction attrMap with
  | nil => simp at h
  | cons hd tl ih =>
    by_cases hh : hd.1 = r
    · refine ⟨hd.2, ?_⟩
      simp only [findRegion]
      rw [List.find?_cons_of_pos _ (by simpa using hh)]
    · obtain ⟨kv, hkv, hr⟩ := h
      have hmem : kv ∈ tl := by
        rcases List.mem_cons.mp hkv with rfl | hm
        · exact absurd hr hh
        · exact hm
      obtain ⟨v, hv⟩ := ih ⟨kv, hmem, hr⟩
      refine ⟨v, ?_⟩
      simp only [findRegion] at hv ⊢
      rw [List.find?_cons_of_neg _ (by simpa using hh)]
      exact hv

/-- C9: calling `calcCoeff` with a region ID that is not among the regions
established at construction yields `invalid_argument("Unknown region ID")`
and leaves the stored region attributes unchanged; for a known region the
lookup never fails (and the attributes are likewise unchanged). -/
theorem calcCoeffRun_region_lookup (props : Props)
    (attrMap : List (Int × RegValue)) (inp : Int → ℚ) (r : Int) :
    ((∀ kv ∈ attrMap, kv.1 ≠ r) →
      calcCoeffRun props attrMap inp r =
        (Except.error "Unknown region ID", attrMap)) ∧
    ((∃ kv ∈ attrMap, kv.1 = r) →
      (∃ co, (calcCoeffRun props attrMap inp r).1 = Except.ok co) ∧
      (calcCoeffRun props attrMap inp r).2 = attrMap) := by
  constructor
  · intro h
    simp [calcCoeffRun, findRegion_unknown attrMap r h]
  · intro h
    obtain ⟨v, hv⟩ := findRegion_known attrMap r h
    refine ⟨⟨calcCoeff props v.attr v.cell inp, ?_⟩, ?_⟩
    · simp [calcCoeffRun, hv]
    · unfold calcCoeffRun
      cases findRegion attrMap r <;> rfl

/-- Witness for C9: the singleton map for region 1 rejects region 2 with
the unknown-region error and keeps the stored attributes. -/
theorem calcCoeffRun_region_lookup_witness :
    (∀ kv ∈ [((1 : Int), regValEx)], kv.1 ≠ (2 : Int)) ∧
    calcCoeffRun propsEx [((1 : Int), regValEx)] inEx 2 =
      (Except.error "Unknown region ID", [((1 : Int), regValEx)]) := by
  have h : ∀ kv ∈ [((1 : Int), regValEx)], kv.1 ≠ (2 : Int) := by
    intro kv hkv
    rcases List.mem_singleton.mp hkv with rfl
    norm_num
  exact ⟨h,
    (calcCoeffRun_region_lookup propsEx [((1 : Int), regValEx)] inEx 2).1 h⟩

/-- The explicit `det⁻¹ • adjugate` factorisation agrees with the
nonsingular matrix inverse. -/
theorem invD_eq_inv {nw : Nat} (D : Matrix (Fin nw) (Fin nw) ℚ) :
    MultisegmentWell.invD D = D⁻¹ := by
  rw [MultisegmentWell.invD, Matrix.inv_def, Ring.inverse_eq_inv]

/-- C1: for an invertible diagonal block `D`, the recovered well increment
`xw = D⁻¹ · (resWell − B·x)` satisfies the Schur round-trip identity
`D · xw = resWell − B·x`. -/
theorem recoverSolutionWell_schur_roundtrip {nw nr : Nat}
    (D : Matrix (Fin nw) (Fin nw) ℚ) (B : Matrix (Fin nw) (Fin nr) ℚ)
    (resWell : Fin nw → ℚ) (x : Fin nr → ℚ) (h : IsUnit D.det) :
    Matrix.mulVec D (MultisegmentWell.recoverSolutionWell D B resWell x) =
      resWell - Matrix.mulVec B x := by
  rw [MultisegmentWell.recoverSolutionWell, invD_eq_inv, Matrix.mulVec_mulVec,
    Matrix.mul_nonsing_inv D h, Matrix.one_mulVec]

/-- Witness for C1 with the concrete 1×1 system `D = [2]`, `B = [3]`,
`resWell = [4]`, `x = [5]`. -/
theorem recoverSolutionWell_schur_roundtrip_witness :
    IsUnit (!![(2 : ℚ)]).det ∧
    Matrix.mulVec !![(2 : ℚ)]
        (MultisegmentWell.recoverSolutionWell !![(2 : ℚ)] !![(3 : ℚ)]
          ![4] ![5]) =
      ![4] - Matrix.mulVec !![(3 : ℚ)] ![5] := by
  have h : IsUnit (!![(2 : ℚ)]).det := by
    norm_num [Matrix.det_fin_one, isUnit_iff_ne_zero]
  exact ⟨h,
    recoverSolutionWell_schur_roundtrip !![(2 : ℚ)] !![(3 : ℚ)] ![4] ![5] h⟩

/-- C4: the Contribute operation subtracts `C·(D⁻¹·(B·x))` from the
matrix-vector product accumulator and `C·(D⁻¹·resWell)` from the residual
accumulator, and neither operation changes the well's own blocks `B`, `C`,
`D` or `resWell`. -/
theorem apply_schur_contribution {nw nr : Nat}
    (ws : MultisegmentWell.WellSystem nw nr) (x Ax r : Fin nr → ℚ) :
    (MultisegmentWell.applyX ws x Ax).1 =
      Ax - Matrix.mulVec ws.duneC
        (Matrix.mulVec ws.duneD⁻¹ (Matrix.mulVec ws.duneB x)) ∧
    (MultisegmentWell.applyX ws x Ax).2 = ws ∧
    (MultisegmentWell.applyR ws r).1 =
      r - Matrix.mulVec ws.duneC (Matrix.mulVec ws.duneD⁻¹ ws.resWell) ∧
    (MultisegmentWell.applyR ws r).2 = ws := by
  refine ⟨?_, rfl, ?_, rfl⟩ <;>
    simp [MultisegmentWell.applyX, MultisegmentWell.applyR, invD_eq_inv]

/-- The normalised nonnegative triple with total at least one lies in the
unit interval componentwise and sums to exactly one. -/
theorem normalizeTriple_spec (a b co : ℚ) (ha : 0 ≤ a) (hb : 0 ≤ b)
    (hc : 0 ≤ co) (hs : 1 ≤ a + b + co) :
    (0 ≤ a / (a + b + co) ∧ a / (a + b + co) ≤ 1) ∧
    (0 ≤ b / (a + b + co) ∧ b / (a + b + co) ≤ 1) ∧
    (0 ≤ co / (a + b + co) ∧ co / (a + b + co) ≤ 1) ∧
    a / (a + b + co) + b / (a + b + co) + co / (a + b + co) = 1 := by
  have hs0 : 0 < a + b + co := lt_of_lt_of_le one_pos hs
  refine ⟨⟨div_nonneg ha hs0.le, (div_le_one hs0).mpr (by linarith)⟩,
    ⟨div_nonneg hb hs0.le, (div_le_one hs0).mpr (by linarith)⟩,
    ⟨div_nonneg hc hs0.le, (div_le_one hs0).mpr (by linarith)⟩, ?_⟩
  rw [div_add_div_same, div_add_div_same, div_self (ne_of_gt hs0)]

/-- C8: after `processFractions`, the three phase volume fractions all lie
in `[0,1]` and sum to exactly `1`, for every incoming (possibly
overshooting) pair of explicit fraction variables; the operation is a
single clipping pass. -/
theorem processFractions_unit_interval_sum_one (fw fg : ℚ) :
    (0 ≤ (MultisegmentWell.processFractions fw fg).1 ∧
      (MultisegmentWell.processFractions fw fg).1 ≤ 1) ∧
    (0 ≤ (MultisegmentWell.processFractions fw fg).2.1 ∧
      (MultisegmentWell.processFractions fw fg).2.1 ≤ 1) ∧
    (0 ≤ (MultisegmentWell.processFractions fw fg).2.2 ∧
      (MultisegmentWell.processFractions fw fg).2.2 ≤ 1) ∧
    (MultisegmentWell.processFractions fw fg).1 +
      (MultisegmentWell.processFractions fw fg).2.1 +
      (MultisegmentWell.processFractions fw fg).2.2 = 1 := by
  have ha : 0 ≤ MultisegmentWell.clip01 fw := le_max_left 0 _
  have hb : 0 ≤ MultisegmentWell.clip01 fg := le_max_left 0 _
  have ha1 : MultisegmentWell.clip01 fw ≤ 1 :=
    max_le (by norm_num) (min_le_left 1 fw)
  have hb1 : MultisegmentWell.clip01 fg ≤ 1 :=
    max_le (by norm_num) (min_le_left 1 fg)
  have hc : 0 ≤ MultisegmentWell.clip01
      (1 - MultisegmentWell.clip01 fw - MultisegmentWell.clip01 fg) :=
    le_max_left 0 _
  have hs : 1 ≤ MultisegmentWell.clip01 fw + MultisegmentWell.clip01 fg +
      MultisegmentWell.clip01
        (1 - MultisegmentWell.clip01 fw - MultisegmentWell.clip01 fg) := by
    rcases le_or_lt 0
        (1 - MultisegmentWell.clip01 fw - MultisegmentWell.clip01 fg) with
      hpos | hneg
    · have heq : MultisegmentWell.clip01
          (1 - MultisegmentWell.clip01 fw - MultisegmentWell.clip01 fg) =
          1 - MultisegmentWell.clip01 fw - MultisegmentWell.clip01 fg := by
        rw [MultisegmentWell.clip01, min_eq_right (by linarith), max_eq_right hpos]
      rw [heq]
      linarith
    · have heq : MultisegmentWell.clip01
          (1 - MultisegmentWell.clip01 fw - MultisegmentWell.clip01 fg) = 0 := by
        rw [MultisegmentWell.clip01, min_eq_right (by linarith),
          max_eq_left (by linarith)]
      rw [heq]
      linarith
  exact normalizeTriple_spec _ _ _ ha hb hc hs

end Opm
